import Mathlib

/-!
Shallow embedding of the early bump allocator in
`arceos/modules/bump_allocator/src/lib.rs`.

The allocator manages one contiguous region `[start, end)` with a byte
cursor `b_pos` growing forward and a page cursor `p_pos` growing backward.
All fields are Rust `usize` values; arithmetic is modelled on `Nat` with
explicit wrap-around modulo `2^64` (release-mode wrapping semantics).
The explicit `panic` in `dealloc`, the `unimplemented` macro bodies of
`add_memory` and `dealloc_pages`, and the `NonNull::new(..).unwrap()` on a
null address in `alloc` are modelled by a distinct `panic` outcome.
-/

/-- `2^64`, the modulus of Rust `usize` arithmetic on a 64-bit target. -/
def W : Nat := 18446744073709551616

/-- Wrapping `usize` addition. -/
def wadd (a b : Nat) : Nat := (a + b) % W

/-- Wrapping `usize` subtraction (for `a, b < W` this is two's-complement
wrap-around of `a - b`). -/
def wsub (a b : Nat) : Nat := (a + (W - b % W)) % W

/-- Wrapping `usize` multiplication. -/
def wmul (a b : Nat) : Nat := a * b % W

/-- `x & !(a - 1)` for a power-of-two alignment `a`: align `x` downward. -/
def alignDown (x a : Nat) : Nat := x / a * a

/-- `(x + a - 1) & !(a - 1)` for a power-of-two alignment `a`: align `x`
upward; the inner sum wraps as in Rust. -/
def alignUp (x a : Nat) : Nat := alignDown ((x + a - 1) % W) a

/-- Error type of the external `allocator` crate as used by this module.
`NoMemory` is the variant the source constructs; `Unsupported` is the
variant the specification names for the always-failing operations
(modelled from the spec: the crate itself is not part of this tree). -/
inductive AllocError where
  | NoMemory
  | Unsupported
  deriving DecidableEq

/-- Result of one allocator call: a value, a recoverable error, or a
diverging panic (from the explicit panic, an `unimplemented` body, or
`NonNull::new(0).unwrap()`). -/
inductive Outcome (α : Type) where
  | ok (val : α)
  | err (e : AllocError)
  | panic
  deriving DecidableEq

/-- The state block of `EarlyAllocator<SIZE>`; `SIZE` (the page size) is
passed explicitly to the operations that use it. `end` is a Lean keyword,
hence the field name `end_`. -/
structure EarlyAllocator where
  start : Nat
  end_ : Nat
  b_pos : Nat
  p_pos : Nat
  count : Nat
  deriving DecidableEq

/-- `EarlyAllocator::new()`: all fields zero. -/
def EarlyAllocator.new : EarlyAllocator := ⟨0, 0, 0, 0, 0⟩

/-- `BaseAllocator::init(start, size)`: `end = start + size`,
`b_pos = start`, `p_pos = (end / SIZE) * SIZE` (align downward),
`count = 0`. -/
def init (SIZE : Nat) (s : EarlyAllocator) (start size : Nat) : EarlyAllocator :=
  { s with
    start := start
    end_ := wadd start size
    b_pos := start
    p_pos := wadd start size / SIZE * SIZE
    count := 0 }

/-- `BaseAllocator::add_memory`: body is the `unimplemented` macro, so the
call diverges and the state is untouched. -/
def add_memory (s : EarlyAllocator) (start size : Nat) : EarlyAllocator × Outcome Unit :=
  (s, Outcome.panic)

/-- `ByteAllocator::total_bytes`: `p_pos - start`. -/
def total_bytes (s : EarlyAllocator) : Nat := wsub s.p_pos s.start

/-- `ByteAllocator::used_bytes`: `b_pos - start`. -/
def used_bytes (s : EarlyAllocator) : Nat := wsub s.b_pos s.start

/-- `ByteAllocator::available_bytes`: `p_pos - b_pos`. -/
def available_bytes (s : EarlyAllocator) : Nat := wsub s.p_pos s.b_pos

/-- `PageAllocator::total_pages`: `(end - b_pos) / SIZE`. -/
def total_pages (SIZE : Nat) (s : EarlyAllocator) : Nat := wsub s.end_ s.b_pos / SIZE

/-- `PageAllocator::used_pages`: `(end - p_pos) / SIZE`. -/
def used_pages (SIZE : Nat) (s : EarlyAllocator) : Nat := wsub s.end_ s.p_pos / SIZE

/-- `PageAllocator::available_pages`: `available_bytes / SIZE`. -/
def available_pages (SIZE : Nat) (s : EarlyAllocator) : Nat := available_bytes s / SIZE

/-- `ByteAllocator::alloc(layout)`: round `b_pos` up to `layout.align()`;
if `available_bytes()` (computed at the rounded cursor) is below
`layout.size()`, restore the original `b_pos` and return `NoMemory`;
otherwise increment `count`, advance `b_pos` by the size and return the
rounded address (`NonNull::new(addr).unwrap()` diverges when it is 0). -/
def alloc (s : EarlyAllocator) (size align : Nat) : EarlyAllocator × Outcome Nat :=
  if available_bytes { s with b_pos := alignUp s.b_pos align } < size then
    (s, Outcome.err AllocError.NoMemory)
  else if alignUp s.b_pos align = 0 then
    ({ s with b_pos := wadd (alignUp s.b_pos align) size, count := wadd s.count 1 },
     Outcome.panic)
  else
    ({ s with b_pos := wadd (alignUp s.b_pos align) size, count := wadd s.count 1 },
     Outcome.ok (alignUp s.b_pos align))

/-- `ByteAllocator::dealloc(pos, layout)`: panic when the address range is
outside `[start, b_pos]`; otherwise decrement `count`; when it reaches 0
reset `b_pos` to `start`; else retract `b_pos` only when the freed block
ends exactly at `b_pos`. -/
def dealloc (s : EarlyAllocator) (addr size : Nat) : Outcome EarlyAllocator :=
  if addr < s.start ∨ s.b_pos < wadd addr size then
    Outcome.panic
  else if wsub s.count 1 = 0 then
    Outcome.ok { s with count := wsub s.count 1, b_pos := s.start }
  else if wadd addr size = s.b_pos then
    Outcome.ok { s with count := wsub s.count 1, b_pos := wsub s.b_pos size }
  else
    Outcome.ok { s with count := wsub s.count 1 }

/-- `PageAllocator::alloc_pages(num_pages, align_pow2)`: move `p_pos` down
by `num_pages * SIZE` and align it down to `align_pow2`; if
`available_pages()` at the new cursor is below `num_pages`, the source
restores `self.b_pos = original_p_pos` (line 126 of `lib.rs`: the byte
cursor receives the saved page-cursor value, while `p_pos` keeps its
lowered value) and returns `NoMemory`; otherwise return the new `p_pos`. -/
def alloc_pages (SIZE : Nat) (s : EarlyAllocator) (num_pages align_pow2 : Nat) :
    EarlyAllocator × Outcome Nat :=
  if available_pages SIZE
      { s with p_pos := alignDown (wsub s.p_pos (wmul num_pages SIZE)) align_pow2 }
      < num_pages then
    ({ s with
        p_pos := alignDown (wsub s.p_pos (wmul num_pages SIZE)) align_pow2
        b_pos := s.p_pos },
     Outcome.err AllocError.NoMemory)
  else
    ({ s with p_pos := alignDown (wsub s.p_pos (wmul num_pages SIZE)) align_pow2 },
     Outcome.ok (alignDown (wsub s.p_pos (wmul num_pages SIZE)) align_pow2))

/-- `PageAllocator::dealloc_pages`: body is the `unimplemented` macro, so
the call diverges and the state is untouched. -/
def dealloc_pages (s : EarlyAllocator) (pos num_pages : Nat) : EarlyAllocator × Outcome Unit :=
  (s, Outcome.panic)

/-- Concrete state from the specification scenario: `init(0x1000, 0x2000)`
with `SIZE = 0x100`, giving `b_pos = 0x1000`, `p_pos = 0x3000`. -/
def s0 : EarlyAllocator := init 0x100 EarlyAllocator.new 0x1000 0x2000

/-- State after the failed call `alloc_pages(0x20, 1)` on `s0` (the
request does not fit under the post-decrement availability check). -/
def sFail : EarlyAllocator := (alloc_pages 0x100 s0 0x20 1).1

/-! Arithmetic helper lemmas about the wrapping operations. -/

/-- Wrapping addition agrees with plain addition below the modulus. -/
lemma wadd_of_lt {a b : Nat} (h : a + b < W) : wadd a b = a + b :=
  Nat.mod_eq_of_lt h

/-- Wrapping multiplication agrees with plain multiplication below the
modulus. -/
lemma wmul_of_lt {a b : Nat} (h : a * b < W) : wmul a b = a * b :=
  Nat.mod_eq_of_lt h

/-- Wrapping subtraction agrees with plain subtraction when it does not
underflow. -/
lemma wsub_of_le {a b : Nat} (hba : b ≤ a) (ha : a < W) : wsub a b = a - b := by
  unfold wsub
  rw [Nat.mod_eq_of_lt (lt_of_le_of_lt hba ha)]
  have h1 : a + (W - b) = W + (a - b) := by omega
  rw [h1, Nat.add_mod_left]
  exact Nat.mod_eq_of_lt (by omega)

/-- Aligning down never increases the value. -/
lemma alignDown_le (x a : Nat) : alignDown x a ≤ x :=
  Nat.div_mul_le_self x a

/-- Aligning up never decreases the value (absent wrap-around). -/
lemma le_alignUp {x a : Nat} (ha : 0 < a) (h : x + a ≤ W) : x ≤ alignUp x a := by
  unfold alignUp alignDown
  rw [Nat.mod_eq_of_lt (by omega)]
  have h1 := Nat.div_add_mod (x + a - 1) a
  have h2 := Nat.mod_lt (x + a - 1) ha
  have h3 : a * ((x + a - 1) / a) = (x + a - 1) / a * a := Nat.mul_comm _ _
  omega

/-- Aligning down to a power of two preserves divisibility by a power of
two. -/
lemma pow2_dvd_alignDown {k j x : Nat} (h : 2 ^ k ∣ x) :
    2 ^ k ∣ alignDown x (2 ^ j) := by
  unfold alignDown
  rcases le_total k j with hkj | hjk
  · exact dvd_trans (pow_dvd_pow 2 hkj) (dvd_mul_left (2 ^ j) (x / 2 ^ j))
  · rw [Nat.div_mul_cancel (dvd_trans (pow_dvd_pow 2 hjk) h)]
    exact h

/-- Both branches of `alloc_pages` leave `p_pos` at the decremented and
aligned value (the failure path restores `b_pos`, not `p_pos`). -/
lemma alloc_pages_fst_p_pos (SIZE : Nat) (s : EarlyAllocator) (n a : Nat) :
    (alloc_pages SIZE s n a).1.p_pos = alignDown (wsub s.p_pos (wmul n SIZE)) a := by
  unfold alloc_pages
  split <;> rfl

/-- `alloc` never touches `p_pos`. -/
lemma alloc_fst_p_pos (s : EarlyAllocator) (size align : Nat) :
    (alloc s size align).1.p_pos = s.p_pos := by
  unfold alloc
  split
  · rfl
  · split <;> rfl

/-- `dealloc` never touches `p_pos` on any non-diverging path. -/
lemma dealloc_p_pos (s : EarlyAllocator) (addr size : Nat) (t : EarlyAllocator)
    (h : dealloc s addr size = Outcome.ok t) : t.p_pos = s.p_pos := by
  unfold dealloc at h
  split at h
  · exact Outcome.noConfusion h
  · split at h
    · cases h; rfl
    · split at h <;> (cases h; rfl)

/-! Claim theorems. -/

/-- C1: the claim states that a failed `alloc_pages` rolls the page cursor
`p_pos` back so the post-state equals the pre-state. On the concrete
failed call `alloc_pages(0x20, 1)` from the scenario state the code
instead leaves `p_pos` lowered to `0x1000` and overwrites `b_pos` with the
saved page-cursor value `0x3000`: the failure path of the source assigns
`self.b_pos = original_p_pos`, so the state is not restored. -/
theorem C1_alloc_pages_failure_not_rolled_back :
    (alloc_pages 0x100 s0 0x20 1).2 = Outcome.err AllocError.NoMemory ∧
    s0.p_pos = 0x3000 ∧ s0.b_pos = 0x1000 ∧
    sFail.p_pos = 0x1000 ∧ sFail.b_pos = 0x3000 ∧ sFail ≠ s0 := by
  decide

/-- C2: the claim states that `start ≤ b_pos ≤ p_pos ≤ end` holds after
every operation on every state reachable from `init`. The state reached
from `init(0x1000, 0x2000)` by the single failed call
`alloc_pages(0x20, 1)` has `b_pos = 0x3000 > p_pos = 0x1000`, violating
the chain. -/
theorem C2_invariant_chain_violated :
    sFail = (alloc_pages 0x100 (init 0x100 EarlyAllocator.new 0x1000 0x2000) 0x20 1).1 ∧
    sFail.b_pos = 0x3000 ∧ sFail.p_pos = 0x1000 ∧
    ¬ (sFail.b_pos ≤ sFail.p_pos) := by
  decide

/-- C3 counterexample: for `start = 0x80`, `size = 0x200`, `P = 0x100`
(a start that is not page-aligned), `init` sets
`p_pos = floor((start+size)/P)*P = 0x200`, while the claim's formula
`start + floor(size/P)*P` gives `0x280`. -/
theorem C3_init_p_pos_cex :
    (init 0x100 EarlyAllocator.new 0x80 0x200).p_pos = 0x200 ∧
    0x80 + 0x200 / 0x100 * 0x100 = 0x280 ∧
    (init 0x100 EarlyAllocator.new 0x80 0x200).p_pos ≠ 0x80 + 0x200 / 0x100 * 0x100 := by
  decide

/-- C3 amended: immediately after `init(start, size)` with page size
`P = SIZE > 0`, provided `start` is a multiple of `P` and `start + size`
does not wrap, the state satisfies `b_pos = start`,
`p_pos = start + floor(size/P)*P` and `count = 0` (in general `p_pos` is
`floor((start+size)/P)*P`, which coincides with the claim's formula
exactly when `start` is `P`-aligned). -/
theorem C3_init_state (SIZE : Nat) (s : EarlyAllocator) (start size : Nat)
    (hS : 0 < SIZE) (hd : SIZE ∣ start) (hov : start + size < W) :
    (init SIZE s start size).b_pos = start ∧
    (init SIZE s start size).p_pos = start + size / SIZE * SIZE ∧
    (init SIZE s start size).count = 0 := by
  obtain ⟨q, hq⟩ := hd
  refine ⟨rfl, ?_, rfl⟩
  show wadd start size / SIZE * SIZE = start + size / SIZE * SIZE
  rw [wadd_of_lt hov, hq, Nat.mul_add_div hS, Nat.add_mul, Nat.mul_comm q SIZE]

/-- C3 witness: the amended statement evaluated at
`init(0x1000, 0x2000)` with `P = 0x100`. -/
theorem C3_init_state_witness :
    (init 0x100 EarlyAllocator.new 0x1000 0x2000).b_pos = 0x1000 ∧
    (init 0x100 EarlyAllocator.new 0x1000 0x2000).p_pos = 0x1000 + 0x2000 / 0x100 * 0x100 ∧
    (init 0x100 EarlyAllocator.new 0x1000 0x2000).count = 0 :=
  C3_init_state 0x100 EarlyAllocator.new 0x1000 0x2000 (by decide) ⟨0x10, by decide⟩
    (by decide)

/-- C4: for every valid `dealloc(addr, size)` call (`addr ≥ start`,
`addr + size ≤ b_pos`, at least one live allocation, fields in `usize`
range): `count` is decremented; if it reaches zero `b_pos` is reset to
`start`; otherwise `b_pos` is retracted by `size` exactly when
`addr + size = b_pos` and is unchanged in every other case (and `p_pos`,
`start`, `end` are untouched, as the result records show). -/
theorem C4_dealloc_behavior (s : EarlyAllocator) (addr size : Nat)
    (h1 : s.start ≤ addr) (h2 : addr + size ≤ s.b_pos)
    (h3 : 1 ≤ s.count) (hc : s.count < W) (hb : s.b_pos < W) :
    (s.count - 1 = 0 →
      dealloc s addr size =
        Outcome.ok { s with count := s.count - 1, b_pos := s.start }) ∧
    (s.count - 1 ≠ 0 → addr + size = s.b_pos →
      dealloc s addr size =
        Outcome.ok { s with count := s.count - 1, b_pos := s.b_pos - size }) ∧
    (s.count - 1 ≠ 0 → addr + size ≠ s.b_pos →
      dealloc s addr size = Outcome.ok { s with count := s.count - 1 }) := by
  have hws : wadd addr size = addr + size := wadd_of_lt (by omega)
  have hc1 : wsub s.count 1 = s.count - 1 := wsub_of_le h3 hc
  have hbs : wsub s.b_pos size = s.b_pos - size := wsub_of_le (by omega) hb
  unfold dealloc
  rw [hws, hc1, hbs]
  refine ⟨fun h0 => ?_, fun h0 heq => ?_, fun h0 hne => ?_⟩
  · rw [if_neg (by omega), if_pos h0]
  · rw [if_neg (by omega), if_neg h0, if_pos heq]
  · rw [if_neg (by omega), if_neg h0, if_neg hne]

/-- C4 witness: freeing the single live 8-byte allocation of the scenario
drains `count` to zero and resets `b_pos` to `start`. -/
theorem C4_dealloc_behavior_witness :
    dealloc (alloc s0 8 8).1 0x1000 8 =
      Outcome.ok { (alloc s0 8 8).1 with
        count := (alloc s0 8 8).1.count - 1
        b_pos := (alloc s0 8 8).1.start } :=
  (C4_dealloc_behavior (alloc s0 8 8).1 0x1000 8 (by decide) (by decide) (by decide)
    (by decide) (by decide)).1 (by decide)

/-- C5 counterexample: in the scenario state (`b_pos = 0x1000`,
`p_pos = 0x3000`) the call `alloc(size = 8, align = 0x4000)` rounds
`b_pos` up to `0x4000`, beyond `p_pos`, so the space between the rounded
cursor and `p_pos` is smaller than the size and the claim demands an
out-of-memory failure with `b_pos` restored; the code's availability
subtraction wraps around instead, the call succeeds with address `0x4000`
and `b_pos` ends at `0x4008`. -/
theorem C5_alloc_cex :
    s0.p_pos - alignUp s0.b_pos 0x4000 < 8 ∧
    (alloc s0 8 0x4000).2 = Outcome.ok 0x4000 ∧
    (alloc s0 8 0x4000).1.b_pos = 0x4008 ∧
    (alloc s0 8 0x4000).2 ≠ Outcome.err AllocError.NoMemory := by
  decide

/-- C5 amended: for `alloc(size, align)` with `align` a power of two,
provided the rounded cursor does not wrap (`b_pos + align ≤ 2^64`), does
not pass `p_pos`, and the counter and `p_pos` are in `usize` range: if
the space `p_pos -` rounded `b_pos` is smaller than `size`, the call
fails with out-of-memory and the state is exactly the pre-call state;
otherwise `count` is incremented and `b_pos` is advanced by `size` from
the rounded value, and the rounded `b_pos` is returned when it is
nonzero — a rounded `b_pos` of zero instead diverges in
`NonNull::new(addr).unwrap()` after those same mutations. -/
theorem C5_alloc_behavior (s : EarlyAllocator) (size j align : Nat)
    (halign : align = 2 ^ j)
    (hov : s.b_pos + align ≤ W) (hr : alignUp s.b_pos align ≤ s.p_pos)
    (hp : s.p_pos < W) (hcnt : s.count + 1 < W) :
    (s.p_pos - alignUp s.b_pos align < size →
      alloc s size align = (s, Outcome.err AllocError.NoMemory)) ∧
    (size ≤ s.p_pos - alignUp s.b_pos align → alignUp s.b_pos align ≠ 0 →
      alloc s size align =
        ({ s with b_pos := alignUp s.b_pos align + size, count := s.count + 1 },
         Outcome.ok (alignUp s.b_pos align))) ∧
    (size ≤ s.p_pos - alignUp s.b_pos align → alignUp s.b_pos align = 0 →
      alloc s size align =
        ({ s with b_pos := alignUp s.b_pos align + size, count := s.count + 1 },
         Outcome.panic)) := by
  have havail : available_bytes { s with b_pos := alignUp s.b_pos align } =
      s.p_pos - alignUp s.b_pos align := wsub_of_le hr hp
  refine ⟨fun hlt => ?_, fun hge hne => ?_, fun hge h0 => ?_⟩
  · unfold alloc
    rw [havail, if_pos hlt]
  · unfold alloc
    rw [havail, if_neg (by omega), if_neg hne,
      wadd_of_lt (show alignUp s.b_pos align + size < W by omega),
      wadd_of_lt hcnt]
  · unfold alloc
    rw [havail, if_neg (by omega), if_pos h0,
      wadd_of_lt (show alignUp s.b_pos align + size < W by omega),
      wadd_of_lt hcnt]

/-- C5 witness: the amended statement evaluated on the scenario call
`alloc(size = 8, align = 8)`, which succeeds at address `0x1000`. -/
theorem C5_alloc_behavior_witness :
    alloc s0 8 8 =
      ({ s0 with b_pos := alignUp s0.b_pos 8 + 8, count := s0.count + 1 },
       Outcome.ok (alignUp s0.b_pos 8)) :=
  (C5_alloc_behavior s0 8 3 8 (by decide) (by decide) (by decide) (by decide)
    (by decide)).2.1 (by decide) (by decide)

/-- C6 counterexample: `add_memory` and `dealloc_pages` diverge through
the `unimplemented` macro; they do not return an `Unsupported` error
value, contrary to the claim's wording. -/
theorem C6_unsupported_cex :
    (add_memory s0 0 0).2 ≠ Outcome.err AllocError.Unsupported ∧
    (dealloc_pages s0 0 0).2 ≠ Outcome.err AllocError.Unsupported := by
  decide

/-- C6 amended: every call to `add_memory` and to `dealloc_pages` fails by
diverging (the `unimplemented` macro aborts) rather than by returning an
`Unsupported` error value, and no state mutation occurs. -/
theorem C6_unsupported_calls (s : EarlyAllocator) (a b : Nat) :
    add_memory s a b = (s, Outcome.panic) ∧
    dealloc_pages s a b = (s, Outcome.panic) :=
  ⟨rfl, rfl⟩

/-- C7: the claim states that no subtraction inside the query functions
can underflow on any reachable state. The state reached from
`init(0x1000, 0x2000)` by one failed `alloc_pages(0x20, 1)` has
`p_pos = 0x1000 < b_pos = 0x3000`, so `available_bytes = p_pos - b_pos`
underflows and wraps to `2^64 - 0x2000`, vastly exceeding the whole
region, and `total_pages`'s numerator `end - b_pos` collapses to `0`. -/
theorem C7_query_underflow :
    sFail.p_pos < sFail.b_pos ∧
    available_bytes sFail = W - 0x2000 ∧
    total_bytes sFail = 0 ∧
    wsub sFail.end_ sFail.b_pos = 0 := by
  decide

/-- C8 counterexample: the call `alloc_pages(2^56 - 1, 1)` on the scenario
state makes the cursor decrement `num_pages * PAGE_SIZE` wrap around
modulo `2^64`, so `p_pos` moves up from `0x3000` to `0x3100`: `p_pos` is
not monotonically non-increasing over every call. -/
theorem C8_p_pos_increase_cex :
    ¬ ((alloc_pages 0x100 s0 (2 ^ 56 - 1) 1).1.p_pos ≤ s0.p_pos) := by
  decide

/-- C8 amended: with `PAGE_SIZE = 2^k` and `align_pow2 = 2^j`, provided
the cursor decrement does not wrap (`num_pages * PAGE_SIZE ≤ p_pos`),
`alloc_pages` never increases `p_pos` (successful or failed) and
preserves its divisibility by `PAGE_SIZE`; `alloc` leaves `p_pos`
untouched, `dealloc` leaves it untouched on every non-diverging path, and
`init` establishes divisibility by `PAGE_SIZE`. -/
theorem C8_p_pos_monotone (SIZE k align_pow2 j num_pages : Nat) (s : EarlyAllocator)
    (hS : SIZE = 2 ^ k) (ha : align_pow2 = 2 ^ j)
    (hp : s.p_pos < W) (hdvd : SIZE ∣ s.p_pos) (hnp : num_pages * SIZE ≤ s.p_pos) :
    (alloc_pages SIZE s num_pages align_pow2).1.p_pos ≤ s.p_pos ∧
    SIZE ∣ (alloc_pages SIZE s num_pages align_pow2).1.p_pos ∧
    (∀ size align, (alloc s size align).1.p_pos = s.p_pos) ∧
    (∀ addr size t, dealloc s addr size = Outcome.ok t → t.p_pos = s.p_pos) ∧
    (∀ t a b, SIZE ∣ (init SIZE t a b).p_pos) := by
  subst hS
  subst ha
  have hmul : wmul num_pages (2 ^ k) = num_pages * 2 ^ k := wmul_of_lt (by omega)
  have hsub : wsub s.p_pos (num_pages * 2 ^ k) = s.p_pos - num_pages * 2 ^ k :=
    wsub_of_le hnp hp
  have hpp : (alloc_pages (2 ^ k) s num_pages (2 ^ j)).1.p_pos =
      alignDown (s.p_pos - num_pages * 2 ^ k) (2 ^ j) := by
    rw [alloc_pages_fst_p_pos, hmul, hsub]
  refine ⟨?_, ?_, alloc_fst_p_pos s, dealloc_p_pos s, ?_⟩
  · rw [hpp]
    exact le_trans (alignDown_le _ _) (Nat.sub_le _ _)
  · rw [hpp]
    exact pow2_dvd_alignDown (Nat.dvd_sub' hdvd (dvd_mul_left (2 ^ k) num_pages))
  · intro t a b
    exact dvd_mul_left (2 ^ k) (wadd a b / 2 ^ k)

/-- C8 witness: the amended statement on the scenario's failed call
`alloc_pages(0x20, 1)`, whose post-state `p_pos = 0x1000` is below the
pre-state `p_pos = 0x3000`. -/
theorem C8_p_pos_monotone_witness :
    (alloc_pages 0x100 s0 0x20 1).1.p_pos ≤ s0.p_pos :=
  (C8_p_pos_monotone 0x100 8 1 0 0x20 s0 (by decide) (by decide) (by decide)
    ⟨0x30, by decide⟩ (by decide)).1

/-- C9: the claim states `used_bytes + available_bytes = total_bytes` and
`available_bytes = p_pos - b_pos` at every observation point of every
valid allocation sequence. After the recoverable out-of-memory failure of
`alloc_pages(0x20, 1)` on the scenario state (failed calls are part of
normal operation per the specification) both identities are violated:
`used_bytes + available_bytes = 2^64` while `total_bytes = 0`, and
`available_bytes` wraps instead of equalling the (empty) gap. -/
theorem C9_accounting_identity_fails :
    used_bytes sFail + available_bytes sFail ≠ total_bytes sFail ∧
    available_bytes sFail ≠ sFail.p_pos - sFail.b_pos := by
  decide

/-- C10: `dealloc` does not guard against `count = 0`: in any state with
`count = 0` and `b_pos = start`, the call `dealloc(addr = start,
size = 0)` satisfies the address precondition (`addr ≥ start` and
`addr + size ≤ b_pos`), is not rejected, and the `count -= 1` underflows
the counter to `2^64 - 1`. -/
theorem C10_dealloc_count_underflow (s : EarlyAllocator)
    (h0 : s.count = 0) (hb : s.b_pos = s.start) (hs : s.start < W) :
    s.start ≤ s.start ∧ wadd s.start 0 ≤ s.b_pos ∧
    dealloc s s.start 0 = Outcome.ok { s with count := W - 1 } := by
  have hw0 : wadd s.start 0 = s.start := wadd_of_lt (by omega)
  have hc : wsub s.count 1 = W - 1 := by rw [h0]; decide
  have hbsub : wsub s.b_pos 0 = s.b_pos := by
    unfold wsub
    rw [Nat.zero_mod, Nat.sub_zero, Nat.add_mod_right]
    exact Nat.mod_eq_of_lt (by omega)
  refine ⟨le_refl _, ?_, ?_⟩
  · rw [hw0]; omega
  · unfold dealloc
    rw [hw0, hc, hbsub, if_neg (by omega), if_neg (by decide), if_pos hb.symm]

/-- C10 witness: the scenario's freshly initialized state (`count = 0`,
`b_pos = start = 0x1000`) accepts `dealloc(0x1000, 0)` and ends with
`count = 2^64 - 1`. -/
theorem C10_dealloc_count_underflow_witness :
    dealloc s0 s0.start 0 = Outcome.ok { s0 with count := W - 1 } :=
  (C10_dealloc_count_underflow s0 (by decide) (by decide) (by decide)).2.2
